import Mathlib

/-!
Verification of the attestation-based key-synchronization core of the
nitriding daemon, shallowly embedded in Lean 4.

Bytes are modelled as `Nat` values and Go byte slices as `List Nat`; a Go
nil slice that the code compares against `nil` is modelled as
`Option (List Nat)` with `none` for nil.  Fallible Go functions returning
`(T, error)` are modelled as `Except String T`.  External collaborators
(the NSM attestation primitive, the `nitrite` document verifier, the
Base64 decoder of the standard library) are parameters of the functions
that call them.
-/

set_option autoImplicit false

deriving instance DecidableEq for Except

namespace Nitriding

/-- Modelled from the spec: the constant `nonceLen` is defined outside the
visible source (`nonce.go`); the spec only says a nonce is a fixed-length
byte sequence of `nonceLen` bytes.  We fix the length at 20 bytes; no claim
depends on the exact value.  A nonce itself is modelled as a raw byte list
so that the length checks of `verifyAttstn` remain meaningful. -/
def nonceLen : Nat := 20

/-- The standard Base64 alphabet, as used by Go's `base64.StdEncoding`. -/
def b64Table : List Char :=
  "ABCDEFGHIJKLMNOPQRSTUVWXYZabcdefghijklmnopqrstuvwxyz0123456789+/".toList

def b64Char (i : Nat) : Char := b64Table.getD i 'A'

/-- Base64-encode a byte list, RFC 4648 with padding, as Go's
`base64.StdEncoding.EncodeToString` does. -/
def b64Chunks : List Nat → List Char
  | [] => []
  | [a] => [b64Char (a / 4), b64Char (a % 4 * 16), '=', '=']
  | [a, b] => [b64Char (a / 4), b64Char (a % 4 * 16 + b / 16), b64Char (b % 16 * 4), '=']
  | a :: b :: c :: rest =>
    b64Char (a / 4) :: b64Char (a % 4 * 16 + b / 16) ::
    b64Char (b % 16 * 4 + c / 64) :: b64Char (c % 64) :: b64Chunks rest

def b64 (l : List Nat) : String := String.mk (b64Chunks l)

/-- `base64.StdEncoding.EncodedLen`: number of Base64 characters for `n`
input bytes. -/
def encodedLen (n : Nat) : Nat := (n + 2) / 3 * 4

/-- `workerAuxInfo` from `attester.go`: the worker's auxiliary information.
`PublicKey` is a Go byte slice compared against nil, hence an `Option`. -/
structure workerAuxInfo where
  WorkersNonce : List Nat
  LeadersNonce : List Nat
  PublicKey : Option (List Nat)
deriving DecidableEq

/-- `leaderAuxInfo` from `attester.go`: the leader's auxiliary information.
`EnclaveKeys` is a Go byte slice compared against nil, hence an `Option`. -/
structure leaderAuxInfo where
  WorkersNonce : List Nat
  EnclaveKeys : Option (List Nat)
deriving DecidableEq

/-- The Go `auxInfo` is `interface\x7b\x7d`; the values that actually flow
through the attesters are `workerAuxInfo` and `leaderAuxInfo` values and
pointers to them (`verifyAttstn` returns pointers).  A pointer and a value
are distinct dynamic types for Go's type switch, so we keep all four. -/
inductive auxInfo where
  | workerVal (w : workerAuxInfo)
  | leaderVal (l : leaderAuxInfo)
  | workerPtr (w : workerAuxInfo)
  | leaderPtr (l : leaderAuxInfo)
deriving DecidableEq

/-- A JSON object at the level the dummy attester reads it: the four field
names that `workerAuxInfo` and `leaderAuxInfo` carry between them.  `none`
models an absent field or a JSON null.  This is the parsed form of the
document bytes `json.Marshal` produces; `encoding/json` ignores unknown
fields when unmarshalling, which this representation makes explicit. -/
structure JsonDoc where
  workersNonce : Option (List Nat)
  leadersNonce : Option (List Nat)
  publicKey : Option (List Nat)
  enclaveKeysField : Option (List Nat)
deriving DecidableEq

/-- `json.Marshal` of an `auxInfo` value, at the `JsonDoc` level: a
`workerAuxInfo` contributes `workers_nonce`, `leaders_nonce`, `public_key`;
a `leaderAuxInfo` contributes `workers_nonce`, `enclave_keys`.  Marshalling
a pointer marshals the pointee. -/
def jsonMarshal : auxInfo → JsonDoc
  | .workerVal w => ⟨some w.WorkersNonce, some w.LeadersNonce, w.PublicKey, none⟩
  | .workerPtr w => ⟨some w.WorkersNonce, some w.LeadersNonce, w.PublicKey, none⟩
  | .leaderVal l => ⟨some l.WorkersNonce, none, none, l.EnclaveKeys⟩
  | .leaderPtr l => ⟨some l.WorkersNonce, none, none, l.EnclaveKeys⟩

/-- `json.Unmarshal(doc, &w)` for `workerAuxInfo`: absent fields keep the
zero value (empty nonce, nil public key). -/
def unmarshalWorker (d : JsonDoc) : workerAuxInfo :=
  ⟨d.workersNonce.getD [], d.leadersNonce.getD [], d.publicKey⟩

/-- `json.Unmarshal(doc, &l)` for `leaderAuxInfo`: absent fields keep the
zero value (empty nonce, nil key bundle). -/
def unmarshalLeader (d : JsonDoc) : leaderAuxInfo :=
  ⟨d.workersNonce.getD [], d.enclaveKeysField⟩

/-- The structural check of `attester.go` line 67:
`len(w.WorkersNonce) == nonceLen && len(w.LeadersNonce) == nonceLen && w.PublicKey != nil`. -/
def wellFormedWorker (w : workerAuxInfo) : Bool :=
  (w.WorkersNonce.length == nonceLen) && (w.LeadersNonce.length == nonceLen) &&
    w.PublicKey.isSome

/-- The structural check of `attester.go` line 79:
`len(l.WorkersNonce) == nonceLen && l.EnclaveKeys != nil`. -/
def wellFormedLeader (l : leaderAuxInfo) : Bool :=
  (l.WorkersNonce.length == nonceLen) && l.EnclaveKeys.isSome

/-- `dummyAttester.createAttstn`: `json.Marshal(aux)`.  Marshalling these
struct types cannot fail, so the function is total. -/
def dummyCreateAttstn (aux : auxInfo) : JsonDoc := jsonMarshal aux

/-- `dummyAttester.verifyAttstn`, `attester.go` lines 59-88.  The document
is taken at the parsed-JSON level, where `json.Unmarshal` into either
struct always succeeds; the code then tries the worker shape first and the
leader shape second, applying `isOurNonce` to the Base64 form of the
partner nonce of whichever shape passes its structural check. -/
def dummyVerifyAttstn (d : JsonDoc) (isOurNonce : String → Bool) :
    Except String auxInfo :=
  let w := unmarshalWorker d
  if wellFormedWorker w then
    if !(isOurNonce (b64 w.LeadersNonce)) then .error "leader nonce not in cache"
    else .ok (.workerPtr w)
  else
    let l := unmarshalLeader d
    if wellFormedLeader l then
      if !(isOurNonce (b64 l.WorkersNonce)) then .error "worker nonce not in cache"
      else .ok (.leaderPtr l)
    else .error "invalid auxiliary information"

/-- The fields of a verified attestation document that
`nitroAttester.verifyAttstn` reads from `nitrite.Verify`'s result: the PCR
map and the `Nonce`, `UserData` and `PublicKey` byte slices (each possibly
nil). -/
structure NitroDoc where
  PCRs : List (Nat × List Nat)
  Nonce : Option (List Nat)
  UserData : Option (List Nat)
  PublicKey : Option (List Nat)
deriving DecidableEq

/-- Modelled from the spec: `arePCRsIdentical` is defined outside the
visible source; section 4.2 requires bit-for-bit equality of the two PCR
maps. -/
def arePCRsIdentical (ours theirs : List (Nat × List Nat)) : Bool :=
  ours == theirs

/-- `nitroAttester.verifyAttstn`, `attester.go` lines 133-173,
parameterised over the external `nitrite.Verify` (with its current-time
options already applied) and `getPCRValues` collaborators.  After the
signature, PCR and nonce checks, classification is solely by whether the
document's public-key field is set. -/
def nitroVerifyAttstn (verify : List Nat → Except String NitroDoc)
    (getPCRValues : Except String (List (Nat × List Nat)))
    (doc : List Nat) (isOurNonce : String → Bool) : Except String auxInfo :=
  match verify doc with
  | .error e => .error ("error verifying attestation document: " ++ e)
  | .ok their =>
    match getPCRValues with
    | .error e => .error ("error verifying attestation document: " ++ e)
    | .ok ourPCRs =>
      if !(arePCRsIdentical ourPCRs their.PCRs) then
        .error "error verifying attestation document: PCR values of remote enclave not identical to ours"
      else
        let b64Nonce := b64 (their.Nonce.getD [])
        if !(isOurNonce b64Nonce) then
          .error ("error verifying attestation document: nonce not in cache: " ++ b64Nonce)
        else if their.PublicKey.isSome then
          .ok (.workerPtr ⟨their.Nonce.getD [], their.UserData.getD [], their.PublicKey⟩)
        else
          .ok (.leaderPtr ⟨their.Nonce.getD [], their.UserData⟩)

/-- The nonce / user-data / public-key triple `nitroAttester.createAttstn`
hands to the NSM attestation request, `attester.go` lines 95-122.  The
local variables start out as nil slices and the type switch matches only
the two struct value types, so any other dynamic type (a pointer included)
leaves all three nil. -/
structure AttRequest where
  Nonce : Option (List Nat)
  UserData : Option (List Nat)
  PublicKey : Option (List Nat)
deriving DecidableEq

def nitroAttstnRequest : auxInfo → AttRequest
  | .workerVal w => ⟨some w.WorkersNonce, some w.LeadersNonce, w.PublicKey⟩
  | .leaderVal l => ⟨some l.WorkersNonce, l.EnclaveKeys, none⟩
  | .workerPtr _ => ⟨none, none, none⟩
  | .leaderPtr _ => ⟨none, none, none⟩

/-- `nitroAttester.createAttstn`, parameterised over the NSM session
(`send` covers opening the session, sending the request and the nil-document
check): the attester itself adds no error of its own for an unrecognized
`auxInfo` shape. -/
def nitroCreateAttstn (send : AttRequest → Except String (List Nat))
    (aux : auxInfo) : Except String (List Nat) :=
  send (nitroAttstnRequest aux)

/-- `enclaveKeys` from `metrics.go` (key material of the enclave); the
lock only guards concurrent access and is not part of the functional
model. -/
structure enclaveKeys where
  NitridingKey : List Nat
  NitridingCert : List Nat
  AppKeys : List Nat
deriving DecidableEq

/-- `enclaveKeys.equal`: `bytes.Equal` on each of the three fields. -/
def enclaveKeys.equal (e1 e2 : enclaveKeys) : Bool :=
  (e1.NitridingCert == e2.NitridingCert) &&
  (e1.NitridingKey == e2.NitridingKey) &&
  (e1.AppKeys == e2.AppKeys)

/-- `enclaveKeys.setAppKeys`. -/
def enclaveKeys.setAppKeys (e : enclaveKeys) (appKeys : List Nat) : enclaveKeys :=
  { e with AppKeys := appKeys }

/-- `enclaveKeys.setNitridingKeys`. -/
def enclaveKeys.setNitridingKeys (e : enclaveKeys) (key cert : List Nat) : enclaveKeys :=
  { e with NitridingKey := key, NitridingCert := cert }

/-- `enclaveKeys.set`: the new state of the receiver after assigning all
three fields from `newKeys`. -/
def enclaveKeys.set (_e newKeys : enclaveKeys) : enclaveKeys :=
  ⟨newKeys.NitridingKey, newKeys.NitridingCert, newKeys.AppKeys⟩

/-- `enclaveKeys.get`: a field-by-field copy of the receiver. -/
def enclaveKeys.get (e : enclaveKeys) : enclaveKeys :=
  ⟨e.NitridingKey, e.NitridingCert, e.AppKeys⟩

/-- Whether a Go `(T, error)` result is an error (with a nil `T`). -/
def isErr {α : Type} : Except String α → Bool
  | .error _ => true
  | .ok _ => false

/-- The `WorkersNonce` field of whichever payload an `auxInfo` value
carries. -/
def auxWorkersNonce : auxInfo → List Nat
  | .workerVal w => w.WorkersNonce
  | .workerPtr w => w.WorkersNonce
  | .leaderVal l => l.WorkersNonce
  | .leaderPtr l => l.WorkersNonce

/-- `sha256.Size`. -/
def sha256Size : Nat := 32

/-- `hashHandler`'s read bound, `handlers.go` line 138:
`base64.StdEncoding.EncodedLen(sha256.Size) + 1` (one extra byte for a
trailing newline). -/
def maxReadLen : Nat := encodedLen sha256Size + 1

/-- The ASCII bytes `strings.TrimSpace` strips (tab, LF, VT, FF, CR,
space); multi-byte Unicode spaces do not occur in Base64 hash bodies. -/
def isSpaceByte (b : Nat) : Bool :=
  b == 9 || b == 10 || b == 11 || b == 12 || b == 13 || b == 32

/-- `strings.TrimSpace` on a byte string. -/
def trimSpaceBytes (l : List Nat) : List Nat :=
  ((l.dropWhile isSpaceByte).reverse.dropWhile isSpaceByte).reverse

/-- `hashHandler`, `handlers.go` lines 135-160, as a function from the
request body and the currently stored `appKeyHash` to the response status
and the new `appKeyHash`.  Modelled from the spec where the source is not
visible: `newLimitReader` (fails once more than `maxReadLen` bytes are
read) and the 32-byte `appKeyHash` array of `AttestationHashes`; Go's
Base64 decoder is the `decode` parameter (`none` models a decode error).
A body within the read bound is decoded after trimming surrounding
whitespace; only a decoded hash of exactly `sha256.Size` bytes is copied
into `appKeyHash`. -/
def hashHandler (decode : List Nat → Option (List Nat))
    (body appKeyHash : List Nat) : Nat × List Nat :=
  if maxReadLen < body.length then (400, appKeyHash)
  else
    match decode (trimSpaceBytes body) with
    | none => (400, appKeyHash)
    | some keyHash =>
      if keyHash.length ≠ sha256Size then (400, appKeyHash)
      else (200, keyHash)

/-- `encoding/hex`: value of one hex digit (Go accepts both cases). -/
def hexDigitVal (c : Char) : Option Nat :=
  let n := c.toNat
  if 48 ≤ n && n ≤ 57 then some (n - 48)
  else if 97 ≤ n && n ≤ 102 then some (n - 87)
  else if 65 ≤ n && n ≤ 70 then some (n - 55)
  else none

/-- `hex.DecodeString`: errors on an odd-length input or a non-hex
character. -/
def hexDecodeList : List Char → Option (List Nat)
  | [] => some []
  | [_] => none
  | a :: b :: rest =>
    match hexDigitVal a, hexDigitVal b, hexDecodeList rest with
    | some x, some y, some r => some ((x * 16 + y) :: r)
    | _, _, _ => none

def hexDecode (s : String) : Option (List Nat) := hexDecodeList s.toList

/-- `strings.ToLower` restricted to ASCII, which is all a hex nonce can
contain (non-ASCII characters are not hex digits and are rejected by the
decoder either way). -/
def charToLower (c : Char) : Char :=
  if 65 ≤ c.toNat && c.toNat ≤ 90 then Char.ofNat (c.toNat + 32) else c

def toLowerAscii (s : String) : String := String.mk (s.toList.map charToLower)

/-- What `attestationHandler` does with one request: the HTTP status, the
response body, and the raw nonce handed to the attestation primitive
(`none` when `attest` was never called). -/
structure AttOutcome where
  status : Nat
  body : String
  forwarded : Option (List Nat)
deriving DecidableEq

/-- `attestationHandler`, `handlers.go` lines 195-227.  `attest` and the
serialized `AttestationHashes` are external collaborators (their source is
outside `src/`); `parseFormOk` models whether `r.ParseForm` succeeds and
`nonceQ` is the `nonce` query parameter (`""` when missing, as
`url.Values.Get` reports it).  The error strings stand in for the
`errNoNonce` etc. constants defined outside the visible source. -/
def attestationHandler (useProfiling parseFormOk : Bool)
    (serializedHashes : List Nat)
    (attest : List Nat → List Nat → Option (List Nat) → Except String (List Nat))
    (nonceQ : String) : AttOutcome :=
  if useProfiling then ⟨503, "profiling enabled; not allowing attestation", none⟩
  else if !parseFormOk then ⟨400, "failed to parse POST form data", none⟩
  else if nonceQ == "" then ⟨400, "could not find nonce in URL query parameters", none⟩
  else
    match hexDecode (toLowerAscii nonceQ) with
    | none => ⟨400, "failed to decode nonce", none⟩
    | some rawNonce =>
      match attest rawNonce serializedHashes none with
      | .error _ => ⟨500, "failed to obtain attestation document from hypervisor", some rawNonce⟩
      | .ok rawDoc => ⟨200, b64 rawDoc, some rawNonce⟩

end Nitriding

namespace Nitriding

/-- Helper: `BEq` on byte lists is symmetric. -/
theorem bytesBeq_swap (x y : List Nat) : (x == y) = (y == x) := by
  by_cases h : x = y
  · subst h; rfl
  · rw [beq_eq_false_iff_ne.mpr h, beq_eq_false_iff_ne.mpr (Ne.symm h)]

/-- C6: `set` followed by `get` returns a bundle whose three fields are
byte-equal to the fields of the bundle that was set, whatever the previous
state was: `set` replaces all three fields wholesale. -/
theorem set_get_roundtrip (e k : enclaveKeys) :
    ((e.set k).get).NitridingKey = k.NitridingKey ∧
    ((e.set k).get).NitridingCert = k.NitridingCert ∧
    ((e.set k).get).AppKeys = k.AppKeys := by
  refine ⟨rfl, rfl, rfl⟩

/-- C7: `equal` is reflexive and symmetric, and is false whenever any one
of the three fields differs between the two bundles. -/
theorem equal_refl_symm_discr (a b : enclaveKeys) :
    a.equal a = true ∧
    a.equal b = b.equal a ∧
    ((a.NitridingKey ≠ b.NitridingKey ∨ a.NitridingCert ≠ b.NitridingCert ∨
      a.AppKeys ≠ b.AppKeys) → a.equal b = false) := by
  refine ⟨?_, ?_, ?_⟩
  · simp [enclaveKeys.equal]
  · simp only [enclaveKeys.equal, bytesBeq_swap]
  · intro h
    cases hq : a.equal b with
    | false => rfl
    | true =>
      exfalso
      simp only [enclaveKeys.equal, Bool.and_eq_true, beq_iff_eq] at hq
      rcases h with h | h | h
      · exact h hq.1.2
      · exact h hq.1.1
      · exact h hq.2

/-- C7 witness: a concrete instantiation of `equal_refl_symm_discr` with
two bundles differing in the `AppKeys` field. -/
theorem equal_refl_symm_discr_witness :
    (enclaveKeys.equal ⟨[1], [2], [3]⟩ ⟨[1], [2], [4]⟩ = false) := by
  have h := equal_refl_symm_discr ⟨[1], [2], [3]⟩ ⟨[1], [2], [4]⟩
  exact h.2.2 (by decide)

/-- C3: for every well-formed `workerAuxInfo` (both nonces of length
`nonceLen`, non-nil public key) and every well-formed `leaderAuxInfo`
(nonce of length `nonceLen`, non-nil key bundle), `dummyAttester.createAttstn`
followed by `dummyAttester.verifyAttstn` with a predicate that accepts the
issued nonce succeeds and recovers (a pointer to) a payload equal to the
original. -/
theorem dummy_attstn_roundtrip (w : workerAuxInfo) (l : leaderAuxInfo)
    (p : String → Bool) :
    (wellFormedWorker w = true → p (b64 w.LeadersNonce) = true →
      dummyVerifyAttstn (dummyCreateAttstn (.workerVal w)) p = .ok (.workerPtr w)) ∧
    (wellFormedLeader l = true → p (b64 l.WorkersNonce) = true →
      dummyVerifyAttstn (dummyCreateAttstn (.leaderVal l)) p = .ok (.leaderPtr l)) := by
  constructor
  · intro hw hp
    have h1 : unmarshalWorker (dummyCreateAttstn (auxInfo.workerVal w)) = w := rfl
    simp [dummyVerifyAttstn, h1, hw, hp]
  · intro hl hp
    have h1 : wellFormedWorker (unmarshalWorker (dummyCreateAttstn (auxInfo.leaderVal l))) = false := by
      simp [wellFormedWorker, unmarshalWorker, dummyCreateAttstn, jsonMarshal]
    have h2 : unmarshalLeader (dummyCreateAttstn (auxInfo.leaderVal l)) = l := rfl
    simp [dummyVerifyAttstn, h1, h2, hl, hp]

/-- C3 witness: the round-trip at concrete worker and leader payloads with
an all-accepting predicate. -/
theorem dummy_attstn_roundtrip_witness :
    dummyVerifyAttstn (dummyCreateAttstn (.workerVal ⟨List.replicate 20 0, List.replicate 20 1, some [5]⟩))
        (fun _ => true) = .ok (.workerPtr ⟨List.replicate 20 0, List.replicate 20 1, some [5]⟩) ∧
    dummyVerifyAttstn (dummyCreateAttstn (.leaderVal ⟨List.replicate 20 2, some [6]⟩))
        (fun _ => true) = .ok (.leaderPtr ⟨List.replicate 20 2, some [6]⟩) := by
  have h := dummy_attstn_roundtrip ⟨List.replicate 20 0, List.replicate 20 1, some [5]⟩
    ⟨List.replicate 20 2, some [6]⟩ (fun _ => true)
  exact ⟨h.1 (by decide) rfl, h.2 (by decide) rfl⟩

/-- C1: in both attesters, whenever the `isOurNonce` predicate rejects the
nonce embedded in the document (for the dummy attester: the partner nonce
of either shape the document could classify as; for the production
attester: the verified document's nonce field), `verifyAttstn` returns an
error and no `auxInfo` value.  A nonce never issued, or consumed by a
prior successful verification, makes the predicate return false, so such
documents are rejected. -/
theorem verifyAttstn_rejects_unknown_nonce :
    (∀ (d : JsonDoc) (p : String → Bool),
      p (b64 (unmarshalWorker d).LeadersNonce) = false →
      p (b64 (unmarshalLeader d).WorkersNonce) = false →
      isErr (dummyVerifyAttstn d p) = true) ∧
    (∀ (verify : List Nat → Except String NitroDoc)
       (pcrs : Except String (List (Nat × List Nat)))
       (doc : List Nat) (p : String → Bool),
      (∀ nd, verify doc = .ok nd → p (b64 (nd.Nonce.getD [])) = false) →
      isErr (nitroVerifyAttstn verify pcrs doc p) = true) := by
  constructor
  · intro d p h1 h2
    cases hw : wellFormedWorker (unmarshalWorker d)
    · cases hl : wellFormedLeader (unmarshalLeader d)
      · simp [dummyVerifyAttstn, hw, hl, isErr]
      · simp [dummyVerifyAttstn, hw, hl, h2, isErr]
    · simp [dummyVerifyAttstn, hw, h1, isErr]
  · intro verify pcrs doc p h
    simp only [nitroVerifyAttstn]
    cases hv : verify doc with
    | error e => simp [isErr]
    | ok their =>
      cases hp : pcrs with
      | error e => simp [isErr]
      | ok ourPCRs =>
        cases hid : arePCRsIdentical ourPCRs their.PCRs
        · simp [hid, isErr]
        · simp [hid, h their hv, isErr]

/-- C1 witness: a concrete dummy document and a concrete production
document, each checked with the constantly-false predicate (no nonce ever
issued), are rejected by the respective attester. -/
theorem verifyAttstn_rejects_unknown_nonce_witness :
    isErr (dummyVerifyAttstn ⟨some (List.replicate 20 1), some (List.replicate 20 2), some [7], none⟩
      (fun _ => false)) = true ∧
    isErr (nitroVerifyAttstn (fun _ => .ok ⟨[], some (List.replicate 20 1), some [3], some [7]⟩)
      (.ok []) [] (fun _ => false)) = true := by
  constructor
  · exact verifyAttstn_rejects_unknown_nonce.1
      ⟨some (List.replicate 20 1), some (List.replicate 20 2), some [7], none⟩
      (fun _ => false) rfl rfl
  · exact verifyAttstn_rejects_unknown_nonce.2
      (fun _ => .ok ⟨[], some (List.replicate 20 1), some [3], some [7]⟩)
      (.ok []) [] (fun _ => false) (fun _ _ => rfl)

/-- C10: `nitroAttester.createAttstn`'s type switch matches only the two
struct value types; on a `*workerAuxInfo` or `*leaderAuxInfo` pointer (the
very type `verifyAttstn` returns) it reports no error of its own and
requests an attestation document with nil nonce, nil user data and nil
public key. -/
theorem nitroCreateAttstn_pointer_fallthrough
    (send : AttRequest → Except String (List Nat))
    (w : workerAuxInfo) (l : leaderAuxInfo) :
    nitroAttstnRequest (.workerPtr w) = ⟨none, none, none⟩ ∧
    nitroAttstnRequest (.leaderPtr l) = ⟨none, none, none⟩ ∧
    nitroCreateAttstn send (.workerPtr w) = send ⟨none, none, none⟩ ∧
    nitroCreateAttstn send (.leaderPtr l) = send ⟨none, none, none⟩ :=
  ⟨rfl, rfl, rfl, rfl⟩

/-- C5 counterexample: a payload carrying all four JSON fields (both
nonces of length `nonceLen`, a non-nil public key and a non-nil key
bundle) passes both structural-validity checks simultaneously, because
`encoding/json` ignores fields unknown to the target struct.  This
refutes the claim that at most one shape can pass. -/
theorem both_shapes_pass_counterexample :
    wellFormedWorker (unmarshalWorker
      ⟨some (List.replicate 20 1), some (List.replicate 20 2), some [7], some [9]⟩) = true ∧
    wellFormedLeader (unmarshalLeader
      ⟨some (List.replicate 20 1), some (List.replicate 20 2), some [7], some [9]⟩) = true := by
  decide

/-- C5 amended: payloads produced by `dummyAttester.createAttstn` from a
worker (resp. leader) payload never pass the leader (resp. worker)
structural check, and whenever a payload passes the worker check —
including payloads that also pass the leader check — `verifyAttstn` never
classifies it as a leader: the worker shape is tried first and wins. -/
theorem createAttstn_payload_single_shape (w : workerAuxInfo) (l : leaderAuxInfo) :
    wellFormedLeader (unmarshalLeader (dummyCreateAttstn (.workerVal w))) = false ∧
    wellFormedWorker (unmarshalWorker (dummyCreateAttstn (.leaderVal l))) = false ∧
    (∀ (d : JsonDoc) (p : String → Bool) (l2 : leaderAuxInfo),
      wellFormedWorker (unmarshalWorker d) = true →
      dummyVerifyAttstn d p ≠ .ok (.leaderPtr l2)) := by
  refine ⟨?_, ?_, ?_⟩
  · simp [wellFormedLeader, unmarshalLeader, dummyCreateAttstn, jsonMarshal]
  · simp [wellFormedWorker, unmarshalWorker, dummyCreateAttstn, jsonMarshal]
  · intro d p l2 hw h
    rw [dummyVerifyAttstn] at h
    simp only [hw, if_true] at h
    cases hn : p (b64 (unmarshalWorker d).LeadersNonce) <;> simp [hn] at h

/-- C5 amended witness: a concrete instantiation showing that a payload
passing the worker check is not classified as a leader. -/
theorem createAttstn_payload_single_shape_witness :
    dummyVerifyAttstn ⟨some (List.replicate 20 1), some (List.replicate 20 2), some [7], some [9]⟩
      (fun _ => true) ≠ .ok (.leaderPtr ⟨List.replicate 20 1, some [9]⟩) := by
  exact (createAttstn_payload_single_shape ⟨[], [], none⟩ ⟨[], none⟩).2.2
    ⟨some (List.replicate 20 1), some (List.replicate 20 2), some [7], some [9]⟩
    (fun _ => true) ⟨List.replicate 20 1, some [9]⟩ (by decide)

/-- C4 counterexample: the production attester performs no structural
well-formedness check at all.  A verified document with a nil public key,
a nil user-data field and a one-byte nonce is classified as a Leader
payload whose `EnclaveKeys` field is nil and whose nonce does not have
`nonceLen` bytes — refuting both the required-field checks and the claim
that a Leader classification always carries a non-nil `EnclaveKeys`. -/
theorem nitro_no_wellformedness_check_counterexample :
    nitroVerifyAttstn (fun _ => .ok ⟨[], some [9], none, none⟩) (.ok []) []
      (fun _ => true) = .ok (.leaderPtr ⟨[9], none⟩) ∧
    wellFormedLeader ⟨[9], none⟩ = false := by
  exact ⟨rfl, by decide⟩

/-- C4 amended: the dummy attester classifies by attempting the worker
shape first and the leader shape second, accepting a shape only when its
structural check passes (so a dummy Leader classification always carries a
non-nil `EnclaveKeys`); the production attester instead classifies solely
by whether the verified document's public-key field is non-nil, with no
well-formedness check on nonce lengths or on the user-data field, so a
production Leader classification may carry a nil `EnclaveKeys`. -/
theorem verifyAttstn_classification :
    (∀ (d : JsonDoc) (p : String → Bool) (a : auxInfo),
      dummyVerifyAttstn d p = .ok a →
      (a = .workerPtr (unmarshalWorker d) ∧ wellFormedWorker (unmarshalWorker d) = true) ∨
      (a = .leaderPtr (unmarshalLeader d) ∧ wellFormedLeader (unmarshalLeader d) = true ∧
        wellFormedWorker (unmarshalWorker d) = false)) ∧
    (∀ (verify : List Nat → Except String NitroDoc)
       (pcrs : Except String (List (Nat × List Nat)))
       (doc : List Nat) (p : String → Bool) (their : NitroDoc)
       (ourPCRs : List (Nat × List Nat)),
      verify doc = .ok their → pcrs = .ok ourPCRs →
      arePCRsIdentical ourPCRs their.PCRs = true →
      p (b64 (their.Nonce.getD [])) = true →
      nitroVerifyAttstn verify pcrs doc p =
        (if their.PublicKey.isSome then
          .ok (.workerPtr ⟨their.Nonce.getD [], their.UserData.getD [], their.PublicKey⟩)
        else
          .ok (.leaderPtr ⟨their.Nonce.getD [], their.UserData⟩))) := by
  constructor
  · intro d p a h
    cases hw : wellFormedWorker (unmarshalWorker d)
    · cases hl : wellFormedLeader (unmarshalLeader d)
      · simp [dummyVerifyAttstn, hw, hl] at h
      · cases hn : p (b64 (unmarshalLeader d).WorkersNonce)
        · simp [dummyVerifyAttstn, hw, hl, hn] at h
        · simp [dummyVerifyAttstn, hw, hl, hn] at h
          subst h
          exact Or.inr ⟨rfl, rfl, rfl⟩
    · cases hn : p (b64 (unmarshalWorker d).LeadersNonce)
      · simp [dummyVerifyAttstn, hw, hn] at h
      · simp [dummyVerifyAttstn, hw, hn] at h
        subst h
        exact Or.inl ⟨rfl, rfl⟩
  · intro verify pcrs doc p their ourPCRs hv hp hid hn
    rw [nitroVerifyAttstn, hv, hp]
    simp [hid, hn]

/-- C4 amended witness: a concrete dummy leader classification (with its
structural checks) and a concrete production classification by the
public-key field alone. -/
theorem verifyAttstn_classification_witness :
    ((auxInfo.leaderPtr ⟨List.replicate 20 2, some [6]⟩ : auxInfo)
        = .workerPtr (unmarshalWorker ⟨some (List.replicate 20 2), none, none, some [6]⟩) ∧
      wellFormedWorker (unmarshalWorker ⟨some (List.replicate 20 2), none, none, some [6]⟩) = true) ∨
    ((auxInfo.leaderPtr ⟨List.replicate 20 2, some [6]⟩ : auxInfo)
        = .leaderPtr (unmarshalLeader ⟨some (List.replicate 20 2), none, none, some [6]⟩) ∧
      wellFormedLeader (unmarshalLeader ⟨some (List.replicate 20 2), none, none, some [6]⟩) = true ∧
      wellFormedWorker (unmarshalWorker ⟨some (List.replicate 20 2), none, none, some [6]⟩) = false) := by
  exact verifyAttstn_classification.1
    ⟨some (List.replicate 20 2), none, none, some [6]⟩ (fun _ => true)
    (.leaderPtr ⟨List.replicate 20 2, some [6]⟩) (by decide)

/-- C2 counterexample: the production attester applies `isOurNonce` to the
verified document's nonce field, not to the partner nonce of the shape it
classifies.  Concretely, a document that classifies as a Worker payload is
accepted by a predicate that returns false on the Base64 form of that
payload's `LeadersNonce` field (and true only on its `WorkersNonce`),
refuting the claim that verification fails when the predicate rejects the
`LeadersNonce` of a Worker classification. -/
theorem nitro_checks_document_nonce_counterexample :
    (fun s => s == b64 (List.replicate 20 1)) (b64 (List.replicate 20 2)) = false ∧
    nitroVerifyAttstn
      (fun _ => .ok ⟨[], some (List.replicate 20 1), some (List.replicate 20 2), some [7]⟩)
      (.ok []) [] (fun s => s == b64 (List.replicate 20 1))
      = .ok (.workerPtr ⟨List.replicate 20 1, List.replicate 20 2, some [7]⟩) := by
  exact ⟨by decide, by decide⟩

/-- C2 amended: the dummy attester applies `isOurNonce` to the Base64 form
of the partner nonce of the shape it classifies — `LeadersNonce` for a
Worker payload, `WorkersNonce` for a Leader payload — and fails when the
predicate returns false on it.  The production attester instead applies
the predicate to the Base64 form of the verified document's nonce field,
which becomes the `WorkersNonce` field of the classified payload for both
shapes, and fails when the predicate returns false on that nonce. -/
theorem verifyAttstn_nonce_predicate_target :
    (∀ (d : JsonDoc) (p : String → Bool),
      wellFormedWorker (unmarshalWorker d) = true →
      dummyVerifyAttstn d p =
        (if p (b64 (unmarshalWorker d).LeadersNonce) then .ok (.workerPtr (unmarshalWorker d))
         else .error "leader nonce not in cache")) ∧
    (∀ (d : JsonDoc) (p : String → Bool),
      wellFormedWorker (unmarshalWorker d) = false →
      wellFormedLeader (unmarshalLeader d) = true →
      dummyVerifyAttstn d p =
        (if p (b64 (unmarshalLeader d).WorkersNonce) then .ok (.leaderPtr (unmarshalLeader d))
         else .error "worker nonce not in cache")) ∧
    (∀ (verify : List Nat → Except String NitroDoc)
       (pcrs : Except String (List (Nat × List Nat)))
       (doc : List Nat) (p : String → Bool) (their : NitroDoc)
       (ourPCRs : List (Nat × List Nat)),
      verify doc = .ok their → pcrs = .ok ourPCRs →
      arePCRsIdentical ourPCRs their.PCRs = true →
      p (b64 (their.Nonce.getD [])) = false →
      isErr (nitroVerifyAttstn verify pcrs doc p) = true) ∧
    (∀ (verify : List Nat → Except String NitroDoc)
       (pcrs : Except String (List (Nat × List Nat)))
       (doc : List Nat) (p : String → Bool) (a : auxInfo),
      nitroVerifyAttstn verify pcrs doc p = .ok a →
      p (b64 (auxWorkersNonce a)) = true) := by
  refine ⟨?_, ?_, ?_, ?_⟩
  · intro d p hw
    cases hn : p (b64 (unmarshalWorker d).LeadersNonce) <;>
      simp [dummyVerifyAttstn, hw, hn]
  · intro d p hw hl
    cases hn : p (b64 (unmarshalLeader d).WorkersNonce) <;>
      simp [dummyVerifyAttstn, hw, hl, hn]
  · intro verify pcrs doc p their ourPCRs hv hp hid hn
    rw [nitroVerifyAttstn, hv, hp]
    simp [hid, hn, isErr]
  · intro verify pcrs doc p a h
    rw [nitroVerifyAttstn] at h
    cases hv : verify doc with
    | error e => rw [hv] at h; exact absurd h (by simp)
    | ok their =>
      rw [hv] at h
      cases hp : pcrs with
      | error e => rw [hp] at h; exact absurd h (by simp)
      | ok ourPCRs =>
        rw [hp] at h
        cases hid : arePCRsIdentical ourPCRs their.PCRs
        · simp [hid] at h
        · cases hn : p (b64 (their.Nonce.getD []))
          · simp [hid, hn] at h
          · cases hpk : their.PublicKey.isSome
            · simp [hid, hn, hpk] at h
              subst h
              exact hn
            · simp [hid, hn, hpk] at h
              subst h
              exact hn

/-- C2 amended witness: concrete instantiations — the dummy attester on a
marshalled worker payload with a predicate rejecting its leader nonce, and
the production attester rejecting a document whose nonce field the
predicate refuses. -/
theorem verifyAttstn_nonce_predicate_target_witness :
    dummyVerifyAttstn ⟨some (List.replicate 20 1), some (List.replicate 20 2), some [7], none⟩
      (fun _ => false) = .error "leader nonce not in cache" ∧
    isErr (nitroVerifyAttstn (fun _ => .ok ⟨[], some (List.replicate 20 1), some [3], some [7]⟩)
      (.ok []) [] (fun _ => false)) = true := by
  constructor
  · have h := verifyAttstn_nonce_predicate_target.1
      ⟨some (List.replicate 20 1), some (List.replicate 20 2), some [7], none⟩
      (fun _ => false) (by decide)
    simpa using h
  · exact verifyAttstn_nonce_predicate_target.2.2.1
      (fun _ => .ok ⟨[], some (List.replicate 20 1), some [3], some [7]⟩)
      (.ok []) [] (fun _ => false)
      ⟨[], some (List.replicate 20 1), some [3], some [7]⟩ [] rfl rfl (by decide) rfl

/-- C8: a request body that the Base64 decoder rejects, or whose decoded
value is not exactly `sha256.Size` (32) bytes, is answered with a client
error (400) and leaves the stored `appKeyHash` unchanged; whenever the
stored hash does change, the body decoded to exactly 32 bytes and those
bytes are the new hash — a well-formed 32-byte hash is the only input
ever copied into `appKeyHash`. -/
theorem hashHandler_input_validation (decode : List Nat → Option (List Nat))
    (body old : List Nat) :
    (decode (trimSpaceBytes body) = none → hashHandler decode body old = (400, old)) ∧
    (∀ k, decode (trimSpaceBytes body) = some k → k.length ≠ sha256Size →
      hashHandler decode body old = (400, old)) ∧
    ((hashHandler decode body old).2 ≠ old →
      ∃ k, decode (trimSpaceBytes body) = some k ∧ k.length = sha256Size ∧
        hashHandler decode body old = (200, k)) := by
  refine ⟨?_, ?_, ?_⟩
  · intro hd
    by_cases hb : maxReadLen < body.length
    · simp [hashHandler, hb]
    · simp [hashHandler, hb, hd]
  · intro k hd hlen
    by_cases hb : maxReadLen < body.length
    · simp [hashHandler, hb]
    · simp [hashHandler, hb, hd, hlen]
  · intro hch
    by_cases hb : maxReadLen < body.length
    · exact absurd (by simp [hashHandler, hb]) hch
    · cases hd : decode (trimSpaceBytes body) with
      | none => exact absurd (by simp [hashHandler, hb, hd]) hch
      | some k =>
        by_cases hlen : k.length = sha256Size
        · exact ⟨k, rfl, hlen, by simp [hashHandler, hb, hd, hlen]⟩
        · exact absurd (by simp [hashHandler, hb, hd, hlen]) hch

/-- C8 witness: a body the decoder rejects, and a body decoding to one
byte, are both answered with 400 and leave the stored hash unchanged. -/
theorem hashHandler_input_validation_witness :
    hashHandler (fun _ => none) [65, 66] [9] = (400, [9]) ∧
    hashHandler (fun _ => some [1]) [65, 66] [9] = (400, [9]) := by
  constructor
  · exact (hashHandler_input_validation (fun _ => none) [65, 66] [9]).1 rfl
  · exact (hashHandler_input_validation (fun _ => some [1]) [65, 66] [9]).2.1 [1] rfl (by decide)

/-- C9 counterexample: the outbound attestation endpoint performs no
length check on the decoded nonce.  The hex nonce `"01"` decodes to a
single byte, which is not `nonceLen` bytes long, yet the handler forwards
it to the attestation primitive and answers 200 with the Base64 document —
refuting the claim that such requests are rejected with a client error. -/
theorem attestation_no_length_check_counterexample :
    attestationHandler false true [] (fun _ _ _ => .ok [0]) "01"
      = ⟨200, b64 [0], some [1]⟩ ∧
    (List.length [1] == nonceLen) = false := by
  exact ⟨by decide, by decide⟩

/-- C9 amended: the outbound attestation endpoint rejects with a client
error (400) every request whose nonce query parameter is missing or is
not valid hexadecimal; it performs no length check, so every
hex-decodable nonce — of any length — is forwarded to the attestation
primitive and, when the primitive succeeds, answered with the
Base64-encoded attestation document. -/
theorem attestationHandler_nonce_validation
    (useProfiling parseFormOk : Bool) (hashes : List Nat)
    (attest : List Nat → List Nat → Option (List Nat) → Except String (List Nat))
    (nq : String) :
    (useProfiling = false → parseFormOk = true → nq = "" →
      attestationHandler useProfiling parseFormOk hashes attest nq
        = ⟨400, "could not find nonce in URL query parameters", none⟩) ∧
    (useProfiling = false → parseFormOk = true → nq ≠ "" → hexDecode (toLowerAscii nq) = none →
      attestationHandler useProfiling parseFormOk hashes attest nq
        = ⟨400, "failed to decode nonce", none⟩) ∧
    (∀ raw, useProfiling = false → parseFormOk = true → nq ≠ "" →
      hexDecode (toLowerAscii nq) = some raw →
      (attestationHandler useProfiling parseFormOk hashes attest nq).forwarded = some raw ∧
      (∀ docBytes, attest raw hashes none = .ok docBytes →
        attestationHandler useProfiling parseFormOk hashes attest nq
          = ⟨200, b64 docBytes, some raw⟩)) := by
  refine ⟨?_, ?_, ?_⟩
  · intro hu hp hn
    subst hu; subst hp; subst hn
    simp [attestationHandler]
  · intro hu hp hn hdec
    subst hu; subst hp
    simp [attestationHandler, beq_eq_false_iff_ne.mpr hn, hdec]
  · intro raw hu hp hn hdec
    subst hu; subst hp
    have hne := beq_eq_false_iff_ne.mpr hn
    constructor
    · cases ha : attest raw hashes none with
      | error e => simp [attestationHandler, hne, hdec, ha]
      | ok d2 => simp [attestationHandler, hne, hdec, ha]
    · intro docBytes hok
      simp [attestationHandler, hne, hdec, hok]

/-- C9 amended witness: a missing nonce and a non-hex nonce are rejected
with 400, and a well-formed two-byte hex nonce is forwarded and answered
with the Base64 document. -/
theorem attestationHandler_nonce_validation_witness :
    attestationHandler false true [] (fun _ _ _ => .ok [0]) ""
      = ⟨400, "could not find nonce in URL query parameters", none⟩ ∧
    attestationHandler false true [] (fun _ _ _ => .ok [0]) "zz"
      = ⟨400, "failed to decode nonce", none⟩ ∧
    attestationHandler false true [] (fun _ _ _ => .ok [0]) "0102"
      = ⟨200, b64 [0], some [1, 2]⟩ := by
  refine ⟨?_, ?_, ?_⟩
  · exact (attestationHandler_nonce_validation false true []
      (fun _ _ _ => .ok [0]) "").1 rfl rfl rfl
  · exact (attestationHandler_nonce_validation false true []
      (fun _ _ _ => .ok [0]) "zz").2.1 rfl rfl (by decide) (by decide)
  · exact ((attestationHandler_nonce_validation false true []
      (fun _ _ _ => .ok [0]) "0102").2.2 [1, 2] rfl rfl (by decide) (by decide)).2 [0] rfl

end Nitriding
